import Mathlib

set_option maxRecDepth 8000

/-!
Verification of the obsidian-sync `livesync-proxy` gateway against its design
specification.  The Rust sources under `livesync-proxy/src` are shallowly
embedded as executable Lean definitions: pure request/response processing
becomes Lean functions, the stateful health monitor and message broker become
explicit state-passing functions, and machine integers are modelled as `Nat`
with explicit `% 2 ^ w` where overflow matters.
-/

namespace LiveSyncProxy

/-- JSON values, mirroring `serde_json::Value` as used by the proxy. -/
inductive Json where
  | null : Json
  | bool (b : Bool) : Json
  | num (n : Int) : Json
  | str (s : String) : Json
  | arr (elems : List Json) : Json
  | obj (fields : List (String × Json)) : Json

/-- Substring test on character lists, used to embed Rust's `str::contains`. -/
def charsContainPat (hay pat : List Char) : Bool :=
  match hay with
  | [] => pat.isEmpty
  | _ :: rest => pat.isPrefixOf hay || charsContainPat rest pat

/-- Embeds Rust `str::contains(pattern)` for string patterns. -/
def containsSubstr (s pat : String) : Bool :=
  charsContainPat s.data pat.data

/-- UTF-8 encoding of a single character (byte values as `Nat`). -/
def utf8Bytes (c : Char) : List Nat :=
  let n := c.toNat
  if n < 0x80 then [n]
  else if n < 0x800 then
    [0xC0 ||| (n >>> 6), 0x80 ||| (n &&& 0x3F)]
  else if n < 0x10000 then
    [0xE0 ||| (n >>> 12), 0x80 ||| ((n >>> 6) &&& 0x3F), 0x80 ||| (n &&& 0x3F)]
  else
    [0xF0 ||| (n >>> 18), 0x80 ||| ((n >>> 12) &&& 0x3F),
     0x80 ||| ((n >>> 6) &&& 0x3F), 0x80 ||| (n &&& 0x3F)]

/-- The standard base64 alphabet (RFC 4648), as used by the `base64` crate's
`general_purpose::STANDARD` engine in `utils.rs`. -/
def b64Char (n : Nat) : Char :=
  "ABCDEFGHIJKLMNOPQRSTUVWXYZabcdefghijklmnopqrstuvwxyz0123456789+/".data.getD n 'A'

/-- Base64-encode a byte list, three bytes at a time, with padding. -/
def base64Chunks : List Nat → List Char
  | [] => []
  | [a] => [b64Char (a >>> 2), b64Char ((a &&& 3) <<< 4), '=', '=']
  | [a, b] => [b64Char (a >>> 2), b64Char (((a &&& 3) <<< 4) ||| (b >>> 4)),
               b64Char ((b &&& 15) <<< 2), '=']
  | a :: b :: c :: rest =>
      b64Char (a >>> 2) :: b64Char (((a &&& 3) <<< 4) ||| (b >>> 4)) ::
      b64Char (((b &&& 15) <<< 2) ||| (c >>> 6)) :: b64Char (c &&& 63) ::
      base64Chunks rest

/-- Embeds `utils.rs::base64_encode`: standard padded base64 of the UTF-8
bytes of the input (also the encoding reqwest's `basic_auth` performs). -/
def base64_encode (s : String) : String :=
  ⟨base64Chunks (s.data.map utf8Bytes).flatten⟩

/-- A buffered HTTP response as the proxy constructs it: status code,
optional content-type header, body bytes as a string. -/
structure HttpResponse where
  status : Nat
  contentType : Option String
  body : String
deriving Repr, DecidableEq

/-- Long-poll classification from `couchdb.rs::http_forward_request` and
`server.rs::db_proxy_handler`: the path contains `/_changes` and the query
contains `feed=longpoll`. -/
def isLongpoll (path : String) (query : Option String) : Bool :=
  containsSubstr path "/_changes" &&
    (match query with
     | some q => containsSubstr q "feed=longpoll"
     | none => false)

/-- Classification of `/_changes` requests (long-poll or not). -/
def isChangesRequest (path : String) : Bool :=
  containsSubstr path "/_changes"

/-- Classification of `/_bulk_docs` requests. -/
def isBulkDocs (path : String) : Bool :=
  containsSubstr path "/_bulk_docs"

/-- A reqwest send error as observed by `http_forward_request`: the display
message and the `is_timeout`/`is_connect` classification predicates. -/
structure SendError where
  message : String
  isTimeout : Bool
  isConnect : Bool
deriving Repr, DecidableEq

/-- The client-abort guard of `http_forward_request`: the error display
message contains `aborted` or `canceled`. -/
def sendErrorAborted (e : SendError) : Bool :=
  containsSubstr e.message "aborted" || containsSubstr e.message "canceled"

/-- Body of the synthetic long-poll abort response. -/
def abortBody : String :=
  "\x7b\"ok\":true,\"reason\":\"request_aborted\"\x7d"

/-- Body of the gateway-timeout response, naming the class timeout. -/
def timeoutBody (secs : Nat) : String :=
  "\x7b\"error\":\"Request timed out after " ++ toString secs ++
    " seconds\",\"reason\":\"timeout\"\x7d"

/-- Body of the connection-failure response. -/
def connectFailedBody : String :=
  "\x7b\"error\":\"Failed to connect to CouchDB\",\"reason\":\"connection_failed\"\x7d"

/-- Body of the catch-all transport-failure response. -/
def unexpectedErrorBody (msg : String) : String :=
  "\x7b\"error\":\"Connection to CouchDB failed: " ++ msg ++
    "\",\"reason\":\"unexpected_error\"\x7d"

/-- Embeds the send-error arm of `couchdb.rs::http_forward_request`
(lines 258-335): a failed `req_builder.send()` is mapped, in source order, to
a synthetic 204 for aborted long-polls, 504 on timeout, 502 on connection
failure, and 502 on any other transport error. -/
def http_forward_send_error_response (isLp : Bool) (e : SendError) : HttpResponse :=
  if isLp && sendErrorAborted e then
    { status := 204, contentType := some "application/json", body := abortBody }
  else if e.isTimeout then
    { status := 504, contentType := some "application/json",
      body := timeoutBody (if isLp then 120 else 30) }
  else if e.isConnect then
    { status := 502, contentType := some "application/json", body := connectFailedBody }
  else
    { status := 502, contentType := some "application/json",
      body := unexpectedErrorBody e.message }

/-- The static demo body `handlers.rs::http_proxy_handler` returns for path
`/db` when the forward fails (reproduced verbatim from the raw string). -/
def proxyDemoBody : String :=
  "\x7b\n                        \"couchdb\": \"Welcome to LiveSync Proxy\",\n                        \"version\": \"3.5.0\",\n                        \"status\": \"Development Mode\",\n                        \"note\": \"This is a demo response for development purposes only\",\n                        \"databases\": [\"_users\", \"_replicator\", \"obsidian_sync\"]\n                    \x7d"

/-- Body of the bad-gateway response of `http_proxy_handler`. -/
def badGatewayBody (errMsg : String) : String :=
  "\x7b\"error\":\"bad_gateway\",\"reason\":\"Failed to forward request to CouchDB: " ++
    errMsg ++ "\"\x7d"

/-- Embeds the `Err` arm of `handlers.rs::http_proxy_handler` (lines
231-261): when sending the outbound request fails, path `/db` receives a
`200 OK` demo payload and every other path a `502 Bad Gateway` JSON error. -/
def http_proxy_send_error_response (path errMsg : String) : HttpResponse :=
  if path == "/db" then
    { status := 200, contentType := some "application/json", body := proxyDemoBody }
  else
    { status := 502, contentType := some "application/json", body := badGatewayBody errMsg }

/-- Body substituted by `db_proxy_handler` for a long-poll 204 response. -/
def longpollEmptyResultsBody : String :=
  "\x7b\"results\":[],\"last_seq\":\"0\"\x7d"

/-- Embeds the response post-processing of `server.rs::db_proxy_handler`
(lines 214-298): a long-poll response with status 204 is replaced early with
an empty `results` body; otherwise the body is buffered and re-emitted with
`Content-Type` defaulted to `application/json` when absent. -/
def db_proxy_postprocess (isLp : Bool) (resp : HttpResponse) : HttpResponse :=
  if isLp && resp.status == 204 then
    { status := resp.status, contentType := some "application/json",
      body := longpollEmptyResultsBody }
  else
    { status := resp.status,
      contentType := some (resp.contentType.getD "application/json"),
      body := resp.body }

/-! ## Health monitor (`interfaces/web/health.rs`) -/

/-- Modulus of Rust `u32`. -/
def u32Mod : Nat := 2 ^ 32

/-- Modulus of Rust `u64`. -/
def u64Mod : Nat := 2 ^ 64

/-- Outcome of one timed ping probe: `Ok(Ok(_))`, `Ok(Err(e))`, or a
timeout `Err(Elapsed)`. -/
inductive ProbeResult where
  | success
  | pingError (msg : String)
  | timedOut
deriving Repr, DecidableEq

/-- The failure message recorded for a probe outcome. -/
def probeFailureMessage : ProbeResult → Option String
  | .success => none
  | .pingError e => some ("CouchDB connection error: " ++ e)
  | .timedOut => some "CouchDB connection timed out"

/-- `max_check_interval` from `HealthState::new`: 300 seconds. -/
def maxCheckIntervalSecs : Nat := 300

/-- The check interval `main.rs` passes to `HealthState::new`: 30 seconds. -/
def mainCheckIntervalSecs : Nat := 30

/-- State carried across iterations of the background health-check loop:
the `consecutive_failures` counter (`u32`), the loop-local
`current_interval` in seconds (`u64`), and the stored CouchDB status. -/
structure MonitorState where
  consecutiveFailures : Nat
  currentIntervalSecs : Nat
  available : Bool
  errorMessage : Option String
deriving Repr, DecidableEq

/-- The loop state before the first probe. -/
def initialMonitorState (baseSecs : Nat) : MonitorState :=
  { consecutiveFailures := 0, currentIntervalSecs := baseSecs,
    available := false, errorMessage := none }

/-- Embeds one iteration of `start_background_health_check` (health.rs lines
104-165): success resets the failure counter and the interval; failure
increments the counter (a `u32`) and sets the next interval to
`min(2u64.pow(failures), max_check_interval)` seconds, the `u64` power
wrapping modulo `2 ^ 64`. -/
def healthCheckStep (baseSecs maxSecs : Nat) (s : MonitorState) (r : ProbeResult) :
    MonitorState :=
  match r with
  | .success =>
      { consecutiveFailures := 0, currentIntervalSecs := baseSecs,
        available := true, errorMessage := none }
  | _ =>
      let failures := (s.consecutiveFailures + 1) % u32Mod
      let backoffSecs := min ((2 ^ failures) % u64Mod) maxSecs
      { consecutiveFailures := failures, currentIntervalSecs := backoffSecs,
        available := false, errorMessage := probeFailureMessage r }

/-- `n` consecutive failed probes applied to a starting state. -/
def iterateFailedProbes (baseSecs maxSecs : Nat) (s : MonitorState) : Nat → MonitorState
  | 0 => s
  | n + 1 => healthCheckStep baseSecs maxSecs
      (iterateFailedProbes baseSecs maxSecs s n) (.pingError "connection refused")

/-- The `HealthStatus` enum of health.rs. -/
inductive HealthStatusKind where
  | Healthy
  | Degraded
  | Unhealthy
deriving Repr, DecidableEq

/-- The `couchdb_errors` counter (`u32`) together with the stored
`HealthStatus`, the state read and written by `record_couchdb_error` and
`record_couchdb_success`. -/
structure ErrorCountState where
  couchdbErrors : Nat
  status : HealthStatusKind
deriving Repr, DecidableEq

/-- Embeds `HealthState::record_couchdb_error` (health.rs lines 184-197):
increment the error count, then set `Degraded` when it reaches 3 and
`Unhealthy` when it reaches 10. -/
def record_couchdb_error (s : ErrorCountState) : ErrorCountState :=
  let errors := (s.couchdbErrors + 1) % u32Mod
  let afterDegraded := if 3 ≤ errors then HealthStatusKind.Degraded else s.status
  let afterUnhealthy := if 10 ≤ errors then HealthStatusKind.Unhealthy else afterDegraded
  { couchdbErrors := errors, status := afterUnhealthy }

/-- Embeds `HealthState::record_couchdb_success` (health.rs lines 200-210):
reset the error count and return the state to `Healthy`. -/
def record_couchdb_success (_s : ErrorCountState) : ErrorCountState :=
  { couchdbErrors := 0, status := HealthStatusKind.Healthy }

/-- The stored CouchDB availability status (timestamp omitted). -/
structure CouchDbStatus where
  available : Bool
  errorMessage : Option String
deriving Repr, DecidableEq

/-- The JSON rendered by the `GET /health` handler (uptime and version
omitted). -/
structure HealthResponse where
  status : String
  couchdb : CouchDbStatus
deriving Repr, DecidableEq

/-- Embeds `health.rs::health_handler` (lines 230-252).  The handler has the
whole `HealthState` available — including the `HealthStatus` enum value —
but computes the reported string from `couchdb_status.available` alone. -/
def health_handler (couch : CouchDbStatus) (_st : HealthStatusKind) : HealthResponse :=
  { status := if couch.available then "healthy" else "degraded", couchdb := couch }

/-! ## Domain errors (`domain/models.rs`) -/

/-- The `DomainError` enum of domain/models.rs. -/
inductive DomainError where
  | InvalidMessage (msg : String)
  | AuthError (msg : String)
  | CouchDbError (msg : String)
  | WebSocketError (msg : String)
deriving Repr, DecidableEq

/-! ## Message broker (`infrastructure/websocket.rs`) -/

/-- A tokio `broadcast` channel as the broker observes it: the number of
live receivers (a send fails exactly when there is none) and the messages
delivered so far.  `register_client` drops the initial receiver at once, so
a fresh channel starts with zero receivers. -/
structure BChannel where
  receivers : Nat
  queue : List Json

/-- The broker registry: client id to channel, insertion-ordered. -/
structure Broker where
  connections : List (String × BChannel)

/-- `tx.send(message)`: fails with "channel closed" when no receiver is
subscribed, otherwise delivers. -/
def channelSend (ch : BChannel) (m : Json) : Except String BChannel :=
  if ch.receivers = 0 then .error "channel closed"
  else .ok { ch with queue := ch.queue ++ [m] }

/-- Membership of a client id in the registry. -/
def brokerHasClient (b : Broker) (clientId : String) : Bool :=
  b.connections.any (fun kv => kv.1 == clientId)

/-- Embeds `WebSocketBroker::register_client` (websocket.rs lines 90-104):
error when the id is present, otherwise insert a fresh channel. -/
def register_client (b : Broker) (clientId : String) : Except DomainError Broker :=
  if brokerHasClient b clientId then
    .error (.WebSocketError ("Client " ++ clientId ++ " already registered"))
  else
    .ok { connections := b.connections ++ [(clientId, { receivers := 0, queue := [] })] }

/-- Embeds `WebSocketBroker::unregister_client` (websocket.rs lines
106-117): error when the id is absent, otherwise remove the entry. -/
def unregister_client (b : Broker) (clientId : String) : Except DomainError Broker :=
  if brokerHasClient b clientId then
    .ok { connections := b.connections.filter (fun kv => kv.1 != clientId) }
  else
    .error (.WebSocketError ("Client " ++ clientId ++ " not found"))

/-- One delivery attempt of the broadcast loop: the updated entry plus the
`(id, error-string)` pair pushed onto `errors` when the send failed. -/
def broadcastStep (m : Json) (kv : String × BChannel) :
    (String × BChannel) × Option (String × String) :=
  match channelSend kv.2 m with
  | .ok ch => ((kv.1, ch), none)
  | .error e => ((kv.1, kv.2), some (kv.1, e))

/-- Embeds `WebSocketBroker::broadcast_message` (websocket.rs lines 69-88):
iterate every registered client, attempt each send, and collect the failed
`(client_id, error)` pairs.  Returns the registry after the deliveries and
that failure list (the Rust code then wraps a non-empty list into a single
`WebSocketError` whose message embeds the pairs). -/
def broadcast_message (b : Broker) (m : Json) : Broker × List (String × String) :=
  let results := b.connections.map (broadcastStep m)
  ({ connections := results.map (fun r => r.1) }, results.filterMap (fun r => r.2))

/-! ## Documents and serde (`domain/models.rs`, `infrastructure/couchdb.rs`) -/

/-- The `CouchDbDocument` struct: `_id`, optional `_rev`, and the remaining
fields captured by the `#[serde(flatten)]` `data` value. -/
structure CouchDbDocument where
  id : String
  rev : Option String
  data : Json

/-- First-match field lookup in a JSON object (`serde_json::Map` keys are
unique). -/
def lookupField (fields : List (String × Json)) (key : String) : Option Json :=
  (fields.find? (fun kv => kv.1 == key)).map (fun kv => kv.2)

/-- The fields left for the flattened `data` value after `_id` and `_rev`
are consumed. -/
def removeIdRev (fields : List (String × Json)) : List (String × Json) :=
  fields.filter (fun kv => kv.1 != "_id" && kv.1 != "_rev")

/-- serde deserialization of `CouchDbDocument` from a JSON value: `_id`
must be a string, `_rev` an optional string (`null` or absent gives
`None`), every other field flows into `data`; non-objects are rejected. -/
def deserializeDoc : Json → Except String CouchDbDocument
  | .obj fields =>
    (match lookupField fields "_id" with
     | some (.str docId) =>
       (match lookupField fields "_rev" with
        | some (.str r) => .ok ⟨docId, some r, .obj (removeIdRev fields)⟩
        | some .null => .ok ⟨docId, none, .obj (removeIdRev fields)⟩
        | some _ => .error "invalid type for field _rev"
        | none => .ok ⟨docId, none, .obj (removeIdRev fields)⟩)
     | some _ => .error "invalid type for field _id"
     | none => .error "missing field _id")
  | _ => .error "invalid type: expected a map"

/-- The field list a JSON value contributes under `#[serde(flatten)]`
(serialization of a non-object flattened value is a serde error; the
round-trip theorem only concerns object-valued `data`). -/
def dataFields : Json → List (String × Json)
  | .obj fields => fields
  | _ => []

/-- serde serialization of `CouchDbDocument`: `_id`, then `_rev` when
present (`skip_serializing_if = "Option::is_none"`), then the flattened
`data` fields. -/
def serializeDoc (d : CouchDbDocument) : Json :=
  .obj ([("_id", Json.str d.id)] ++
        (match d.rev with
         | some r => [("_rev", Json.str r)]
         | none => []) ++
        dataFields d.data)

/-- Modelled from the spec: the backend document store itself is not part
of this repository (src/ only contains the HTTP client that talks to it).
Following the wire contract of spec §6 and §8, a `PUT` of a document body
stores the body with a fresh non-empty revision token and returns that
token, and a `GET` returns the stored body.  Documents are keyed by
`database/doc_id`. -/
structure MiniCouch where
  docs : List (String × Json)
  seq : Nat

/-- Store a revision token in a document body, replacing any previous one. -/
def setRevField (body : Json) (r : String) : Json :=
  match body with
  | .obj fields => .obj (fields.filter (fun kv => kv.1 != "_rev") ++ [("_rev", Json.str r)])
  | v => v

/-- Modelled from the spec: backend `PUT {db}/{doc_id}` — store the body
with a fresh revision and answer with that revision. -/
def MiniCouch.putDoc (s : MiniCouch) (key : String) (body : Json) : MiniCouch × String :=
  let newRev := "rev-" ++ toString (s.seq + 1)
  ({ docs := (key, setRevField body newRev) :: s.docs.filter (fun kv => kv.1 != key),
     seq := s.seq + 1 }, newRev)

/-- Modelled from the spec: backend `GET {db}/{doc_id}` — the stored body,
if any. -/
def MiniCouch.getDoc (s : MiniCouch) (key : String) : Option Json :=
  (s.docs.find? (fun kv => kv.1 == key)).map (fun kv => kv.2)

/-- Embeds `couchdb.rs::save_document` (lines 439-479) over the modelled
backend: serialize the document, `PUT` it, parse the `rev` of the reply,
and return the input document with `rev` set to the backend-assigned
revision. -/
def save_document (s : MiniCouch) (dbName : String) (d : CouchDbDocument) :
    MiniCouch × Except DomainError CouchDbDocument :=
  let put := s.putDoc (dbName ++ "/" ++ d.id) (serializeDoc d)
  (put.1, .ok { d with rev := some put.2 })

/-- Embeds `couchdb.rs::get_document` (lines 400-436) over the modelled
backend: 404 becomes a `CouchDbError`, otherwise the body is deserialized
into the `CouchDbDocument` shape. -/
def get_document (s : MiniCouch) (dbName docId : String) :
    Except DomainError CouchDbDocument :=
  match s.getDoc (dbName ++ "/" ++ docId) with
  | none => .error (.CouchDbError ("Document " ++ docId ++ " not found"))
  | some body =>
    match deserializeDoc body with
    | .ok d => .ok d
    | .error e => .error (.InvalidMessage ("Failed to parse document: " ++ e))

/-! ## Sync coordinator (`application/services.rs`) -/

/-- The `MessageType` enum of the LiveSync protocol. -/
inductive MessageType where
  | Connection
  | Sync
  | Replicate
  | Error
  | Heartbeat
deriving Repr, DecidableEq

/-- The collaborators `handle_sync` calls, as oracles: the repository's
`ensure_database` and `save_document`, and the broker's `send_message`
(the random-uuid envelope of the sent `LiveSyncMessage` is abstracted to
its kind and payload). -/
structure BackendBehavior where
  ensure : String → Except DomainError Unit
  save : String → CouchDbDocument → Except DomainError CouchDbDocument
  send : String → MessageType → Json → Except DomainError Unit

/-- A backend call made by the coordinator, in order. -/
inductive BackendCall where
  | ensureDb (dbName : String)
  | saveDoc (dbName : String) (doc : CouchDbDocument)

/-- What one `handle_sync` invocation did: its returned result, the backend
calls it made, and the messages it sent back through the broker. -/
structure SyncOutcome where
  result : Except DomainError Unit
  calls : List BackendCall
  sent : List (String × MessageType × Json)

/-- `serde_json::Value` indexing: `Null` for a missing key or a non-object. -/
def jsonIndex (v : Json) (key : String) : Json :=
  match v with
  | .obj fields => (lookupField fields key).getD .null
  | _ => .null

/-- `Value::as_str`. -/
def Json.asStr : Json → Option String
  | .str s => some s
  | _ => none

/-- `Value::as_object`. -/
def Json.asObj : Json → Option (List (String × Json))
  | .obj fields => some fields
  | _ => none

/-- Serialization of an optional revision inside a `json!` payload. -/
def optionRevJson : Option String → Json
  | some r => .str r
  | none => .null

/-- The payload of the `Sync` confirmation sent after a successful save. -/
def syncReplyPayload (saved : CouchDbDocument) : Json :=
  .obj [("status", Json.str "success"),
        ("document_id", Json.str saved.id),
        ("rev", optionRevJson saved.rev)]

/-- Embeds `LiveSyncService::handle_sync` (services.rs lines 79-119):
extract `payload["database"]` as a string (else `InvalidMessage`, before
any backend call); ensure the database exists; when `payload["document"]`
is an object, deserialize it (else `InvalidMessage`) and save it, then send
a `Sync`-kind confirmation carrying the saved id and revision back to the
same client. -/
def handle_sync (be : BackendBehavior) (clientId : String) (payload : Json) :
    SyncOutcome :=
  match (jsonIndex payload "database").asStr with
  | none => ⟨.error (.InvalidMessage "Missing database name"), [], []⟩
  | some dbName =>
    match be.ensure dbName with
    | .error e => ⟨.error e, [.ensureDb dbName], []⟩
    | .ok _ =>
      match (jsonIndex payload "document").asObj with
      | none => ⟨.ok (), [.ensureDb dbName], []⟩
      | some _ =>
        match deserializeDoc (jsonIndex payload "document") with
        | .error e =>
            ⟨.error (.InvalidMessage ("Invalid document format: " ++ e)),
             [.ensureDb dbName], []⟩
        | .ok doc =>
          match be.save dbName doc with
          | .error e => ⟨.error e, [.ensureDb dbName, .saveDoc dbName doc], []⟩
          | .ok saved =>
              ⟨be.send clientId .Sync (syncReplyPayload saved),
               [.ensureDb dbName, .saveDoc dbName doc],
               [(clientId, .Sync, syncReplyPayload saved)]⟩

/-- A concrete collaborator assignment for evaluating `handle_sync`: the
database always exists, saves succeed with revision `1-abc`, sends
succeed. -/
def witnessBackend : BackendBehavior :=
  { ensure := fun _ => .ok (),
    save := fun _ d => .ok { d with rev := some "1-abc" },
    send := fun _ _ _ => .ok () }

/-! ## Header forwarding (`couchdb.rs::http_forward_request`, lines 213-255) -/

/-- The outbound reqwest request as far as headers are concerned:
the `Authorization` value set by `basic_auth`, and the other headers. -/
structure OutboundRequest where
  authorization : Option String
  headers : List (String × String)

/-- Character-wise lowercasing, embedding Rust's `str::to_lowercase` as the
code applies it to ASCII header names. -/
def lowerAscii (s : String) : String :=
  ⟨s.data.map Char.toLower⟩

/-- The inbound headers copied to the outbound request: everything whose
lowercased name is neither `host` nor `authorization`, values unchanged. -/
def forwardedHeaders (inbound : List (String × String)) : List (String × String) :=
  inbound.filter (fun kv =>
    !(lowerAscii kv.1 == "host") && !(lowerAscii kv.1 == "authorization"))

/-- Embeds the header handling of `http_forward_request`: for `/_changes`
requests `Connection: keep-alive` and `Accept: application/json` are forced
first; `basic_auth` sets `Authorization: Basic base64(username:password)`
exactly when both credentials are non-empty; then every inbound header
except `Host` and `Authorization` is copied over. -/
def buildOutboundRequest (isChanges : Bool) (username password : String)
    (inbound : List (String × String)) : OutboundRequest :=
  { authorization :=
      if username ≠ "" ∧ password ≠ "" then
        some ("Basic " ++ base64_encode (username ++ ":" ++ password))
      else none,
    headers :=
      (if isChanges then [("Connection", "keep-alive"), ("Accept", "application/json")]
       else []) ++ forwardedHeaders inbound }

/-! ## Theorems -/

/-- **C1** (counterexample): when forwarding fails for the request path
`/db`, `http_proxy_handler` answers `200 OK` with the static demo body —
a success status, not the claimed unconditional `502 Bad Gateway`. -/
theorem http_proxy_demo_counterexample :
    (http_proxy_send_error_response "/db" "connection refused").status = 200 ∧
    ((http_proxy_send_error_response "/db" "connection refused").status == 502) = false ∧
    (http_proxy_send_error_response "/db" "connection refused").body = proxyDemoBody := by
  decide

/-- **C1** (amended): when transmission to the backend fails, the proxy
handler returns `502 Bad Gateway` with the `error`/`reason` JSON body for
every request path except exactly `/db`; for path `/db` it instead returns
`200 OK` with a static demo JSON body. -/
theorem http_proxy_send_error_spec (path errMsg : String) :
    (path ≠ "/db" →
      http_proxy_send_error_response path errMsg =
        { status := 502, contentType := some "application/json",
          body := badGatewayBody errMsg }) ∧
    (path = "/db" →
      http_proxy_send_error_response path errMsg =
        { status := 200, contentType := some "application/json",
          body := proxyDemoBody }) := by
  constructor
  · intro h
    have hb : (path == "/db") = false := by simp [h]
    simp [http_proxy_send_error_response, hb]
  · intro h
    subst h
    rfl

/-- **C1** witness: the amended theorem evaluated at the paths
`/db/notes/doc1` and `/db`. -/
theorem http_proxy_send_error_spec_witness :
    http_proxy_send_error_response "/db/notes/doc1" "connection refused" =
      { status := 502, contentType := some "application/json",
        body := badGatewayBody "connection refused" } ∧
    http_proxy_send_error_response "/db" "connection refused" =
      { status := 200, contentType := some "application/json",
        body := proxyDemoBody } :=
  ⟨(http_proxy_send_error_spec "/db/notes/doc1" "connection refused").1 (by decide),
   (http_proxy_send_error_spec "/db" "connection refused").2 rfl⟩

/-- **C2** (counterexample): for the aborted long-poll request
`/db/notes/_changes?feed=longpoll`, the forwarding layer produces status
204, but after the db proxy handler's long-poll 204 rewrite the body
delivered to the caller is `\x7b"results":[],"last_seq":"0"\x7d`, not the
claimed `\x7b"ok":true,"reason":"request_aborted"\x7d`. -/
theorem longpoll_abort_counterexample :
    (db_proxy_postprocess (isLongpoll "/db/notes/_changes" (some "feed=longpoll"))
        (http_forward_send_error_response
          (isLongpoll "/db/notes/_changes" (some "feed=longpoll"))
          ⟨"request aborted", false, false⟩)).status = 204 ∧
    ((db_proxy_postprocess (isLongpoll "/db/notes/_changes" (some "feed=longpoll"))
        (http_forward_send_error_response
          (isLongpoll "/db/notes/_changes" (some "feed=longpoll"))
          ⟨"request aborted", false, false⟩)).body == abortBody) = false ∧
    (db_proxy_postprocess (isLongpoll "/db/notes/_changes" (some "feed=longpoll"))
        (http_forward_send_error_response
          (isLongpoll "/db/notes/_changes" (some "feed=longpoll"))
          ⟨"request aborted", false, false⟩)).body = longpollEmptyResultsBody := by
  decide

/-- **C2** (amended): a client-aborted long-poll request yields status
`204 No Content`, never a 502: the forwarding layer synthesizes the body
`\x7b"ok":true,"reason":"request_aborted"\x7d`, and the db proxy handler then
rewrites the body of a long-poll 204 to `\x7b"results":[],"last_seq":"0"\x7d`
before delivering it to the caller. -/
theorem longpoll_abort_spec (path : String) (query : Option String) (e : SendError)
    (hlp : isLongpoll path query = true) (habort : sendErrorAborted e = true) :
    http_forward_send_error_response (isLongpoll path query) e =
      { status := 204, contentType := some "application/json", body := abortBody } ∧
    db_proxy_postprocess (isLongpoll path query)
        (http_forward_send_error_response (isLongpoll path query) e) =
      { status := 204, contentType := some "application/json",
        body := longpollEmptyResultsBody } := by
  rw [hlp]
  constructor
  · simp [http_forward_send_error_response, habort]
  · simp [http_forward_send_error_response, habort, db_proxy_postprocess]

/-- **C2** witness: the amended theorem evaluated at the aborted long-poll
request `/db/notes/_changes?feed=longpoll`. -/
theorem longpoll_abort_spec_witness :
    http_forward_send_error_response
        (isLongpoll "/db/notes/_changes" (some "feed=longpoll&since=0"))
        ⟨"operation was canceled", false, false⟩ =
      { status := 204, contentType := some "application/json", body := abortBody } ∧
    db_proxy_postprocess (isLongpoll "/db/notes/_changes" (some "feed=longpoll&since=0"))
        (http_forward_send_error_response
          (isLongpoll "/db/notes/_changes" (some "feed=longpoll&since=0"))
          ⟨"operation was canceled", false, false⟩) =
      { status := 204, contentType := some "application/json",
        body := longpollEmptyResultsBody } :=
  longpoll_abort_spec "/db/notes/_changes" (some "feed=longpoll&since=0")
    ⟨"operation was canceled", false, false⟩ (by decide) (by decide)

/-- After `n ≤ 63` consecutive failed probes from a zero-failure state, the
`consecutive_failures` counter reads `n` (no `u32` wrap occurs). -/
theorem iterateFailedProbes_count (baseSecs maxSecs : Nat) (s : MonitorState)
    (hs : s.consecutiveFailures = 0) (n : Nat) (hn : n ≤ 63) :
    (iterateFailedProbes baseSecs maxSecs s n).consecutiveFailures = n := by
  have h32 : u32Mod = 4294967296 := by norm_num [u32Mod]
  induction n with
  | zero => simpa [iterateFailedProbes]
  | succ k ih =>
    have hk : k ≤ 63 := Nat.le_of_succ_le hn
    simp only [iterateFailedProbes, healthCheckStep, ih hk]
    rw [h32]
    omega

/-- After the `n`-th consecutive failed probe (`1 ≤ n ≤ 63`), the next check
interval is `min (2 ^ n) maxSecs` seconds. -/
theorem iterateFailedProbes_interval (baseSecs maxSecs : Nat) (s : MonitorState)
    (hs : s.consecutiveFailures = 0) (n : Nat) (h1 : 1 ≤ n) (hn : n ≤ 63) :
    (iterateFailedProbes baseSecs maxSecs s n).currentIntervalSecs =
      min (2 ^ n) maxSecs := by
  obtain ⟨k, rfl⟩ : ∃ k, n = k + 1 := ⟨n - 1, by omega⟩
  have hk : k ≤ 63 := by omega
  have hcount := iterateFailedProbes_count baseSecs maxSecs s hs k hk
  simp only [iterateFailedProbes, healthCheckStep, hcount]
  have e1 : (k + 1) % u32Mod = k + 1 := by
    have h32 : u32Mod = 4294967296 := by norm_num [u32Mod]
    rw [h32]; omega
  have e2 : (2 ^ (k + 1)) % u64Mod = 2 ^ (k + 1) := by
    apply Nat.mod_eq_of_lt
    have : (2 : Nat) ^ (k + 1) < 2 ^ 64 :=
      Nat.pow_lt_pow_right (by norm_num) (by omega)
    simpa [u64Mod] using this
  rw [e1, e2]

/-- **C3** (counterexample): with the base interval of 30 seconds that
`main.rs` configures, the interval after the first failed probe is
`min(2^1, 300) = 2` seconds, not the claimed
`min(base * 2^1, 300) = 60` seconds: the base interval does not enter the
backoff formula. -/
theorem backoff_counterexample :
    (healthCheckStep mainCheckIntervalSecs maxCheckIntervalSecs
        (initialMonitorState mainCheckIntervalSecs)
        (.pingError "connection refused")).currentIntervalSecs = 2 ∧
    ((healthCheckStep mainCheckIntervalSecs maxCheckIntervalSecs
        (initialMonitorState mainCheckIntervalSecs)
        (.pingError "connection refused")).currentIntervalSecs ==
      min (mainCheckIntervalSecs * 2 ^ 1) maxCheckIntervalSecs) = false := by
  decide

/-- **C3** (amended): after the `n`-th consecutive failed probe the next
check interval equals `min(2^n, max_interval)` seconds — the base interval
does not enter the formula (the `u64` power wraps modulo `2^64`, so the
closed form holds for `n ≤ 63`); over consecutive failures the intervals
are non-decreasing and capped at `max_interval`; a single successful probe
resets the interval to the base interval and `consecutive_failures` to 0. -/
theorem backoff_spec (baseSecs maxSecs : Nat) (s0 : MonitorState) (n : Nat)
    (hs : s0.consecutiveFailures = 0) :
    (1 ≤ n → n ≤ 63 →
      (iterateFailedProbes baseSecs maxSecs s0 n).currentIntervalSecs =
        min (2 ^ n) maxSecs ∧
      (iterateFailedProbes baseSecs maxSecs s0 n).currentIntervalSecs ≤ maxSecs ∧
      (n ≤ 62 →
        (iterateFailedProbes baseSecs maxSecs s0 n).currentIntervalSecs ≤
          (iterateFailedProbes baseSecs maxSecs s0 (n + 1)).currentIntervalSecs)) ∧
    (∀ s : MonitorState, healthCheckStep baseSecs maxSecs s .success =
      { consecutiveFailures := 0, currentIntervalSecs := baseSecs,
        available := true, errorMessage := none }) := by
  constructor
  · intro h1 h63
    have hi := iterateFailedProbes_interval baseSecs maxSecs s0 hs n h1 h63
    refine ⟨hi, ?_, ?_⟩
    · rw [hi]; exact Nat.min_le_right _ _
    · intro h62
      have hi2 := iterateFailedProbes_interval baseSecs maxSecs s0 hs (n + 1)
        (by omega) (by omega)
      rw [hi, hi2]
      exact min_le_min (Nat.pow_le_pow_right (by norm_num) (by omega)) (le_refl _)
  · intro s
    rfl

/-- **C3** witness: three consecutive failures from the configured
30-second base give the interval `min(2^3, 300) = 8`, bounded by the cap
and by the next interval, and one success resets the state. -/
theorem backoff_spec_witness :
    (iterateFailedProbes 30 300 (initialMonitorState 30) 3).currentIntervalSecs =
      min (2 ^ 3) 300 ∧
    (iterateFailedProbes 30 300 (initialMonitorState 30) 3).currentIntervalSecs ≤ 300 ∧
    (iterateFailedProbes 30 300 (initialMonitorState 30) 3).currentIntervalSecs ≤
      (iterateFailedProbes 30 300 (initialMonitorState 30) 4).currentIntervalSecs ∧
    healthCheckStep 30 300 (iterateFailedProbes 30 300 (initialMonitorState 30) 3)
        .success =
      { consecutiveFailures := 0, currentIntervalSecs := 30,
        available := true, errorMessage := none } := by
  have h := backoff_spec 30 300 (initialMonitorState 30) 3 rfl
  have h1 := h.1 (by decide) (by decide)
  exact ⟨h1.1, h1.2.1, h1.2.2 (by decide), h.2 _⟩

/-- **C4**: the failure that brings the error count to exactly 3 moves the
state to `Degraded`, the one that brings it to exactly 10 moves it to
`Unhealthy`, and a single success from any state returns to `Healthy` with
the count reset to 0. -/
theorem health_thresholds (s : ErrorCountState) :
    (s.couchdbErrors = 2 →
      record_couchdb_error s =
        { couchdbErrors := 3, status := HealthStatusKind.Degraded }) ∧
    (s.couchdbErrors = 9 →
      record_couchdb_error s =
        { couchdbErrors := 10, status := HealthStatusKind.Unhealthy }) ∧
    record_couchdb_success s =
      { couchdbErrors := 0, status := HealthStatusKind.Healthy } := by
  have h32 : u32Mod = 4294967296 := by norm_num [u32Mod]
  refine ⟨fun h => ?_, fun h => ?_, rfl⟩ <;>
    simp [record_couchdb_error, h, h32]

/-- **C4** witness: the thresholds evaluated at counts 2 and 9, and a
success from the `Unhealthy` state. -/
theorem health_thresholds_witness :
    record_couchdb_error ⟨2, .Healthy⟩ =
      { couchdbErrors := 3, status := HealthStatusKind.Degraded } ∧
    record_couchdb_error ⟨9, .Degraded⟩ =
      { couchdbErrors := 10, status := HealthStatusKind.Unhealthy } ∧
    record_couchdb_success ⟨5, .Unhealthy⟩ =
      { couchdbErrors := 0, status := HealthStatusKind.Healthy } :=
  ⟨(health_thresholds ⟨2, .Healthy⟩).1 rfl,
   (health_thresholds ⟨9, .Degraded⟩).2.1 rfl,
   (health_thresholds ⟨5, .Unhealthy⟩).2.2⟩

/-- **C5**: every inbound header whose name is not `Host` or
`Authorization` (case-insensitively) is carried to the outbound request
unchanged; with non-empty credentials the outbound `Authorization` header
is `Basic base64(username:password)`; and the outbound `Authorization`
value never depends on the inbound headers — in particular two requests
differing only in their client-supplied `Authorization` header produce the
same outbound `Authorization`. -/
theorem forward_headers_auth_spec (isChanges : Bool) (username password : String)
    (inbound inbound2 : List (String × String)) :
    (∀ kv : String × String, kv ∈ inbound → lowerAscii kv.1 ≠ "host" →
      lowerAscii kv.1 ≠ "authorization" →
      kv ∈ (buildOutboundRequest isChanges username password inbound).headers) ∧
    (username ≠ "" → password ≠ "" →
      (buildOutboundRequest isChanges username password inbound).authorization =
        some ("Basic " ++ base64_encode (username ++ ":" ++ password))) ∧
    (buildOutboundRequest isChanges username password inbound).authorization =
      (buildOutboundRequest isChanges username password inbound2).authorization := by
  refine ⟨?_, ?_, rfl⟩
  · intro kv hmem hhost hauth
    simp only [buildOutboundRequest, List.mem_append]
    right
    simp [forwardedHeaders, List.mem_filter, hmem, hhost, hauth]
  · intro hu hp
    simp [buildOutboundRequest, hu, hp]

/-- **C5** witness: a changes request with a client-supplied
`Authorization` header and a spoofed variant produce identical outbound
basic-auth credentials, while `Content-Type` passes through. -/
theorem forward_headers_auth_spec_witness :
    ("Content-Type", "application/json") ∈
      (buildOutboundRequest true "admin" "password"
        [("Authorization", "Basic ZXZpbDpldmls"), ("Content-Type", "application/json")]).headers ∧
    (buildOutboundRequest true "admin" "password"
        [("Authorization", "Basic ZXZpbDpldmls"),
         ("Content-Type", "application/json")]).authorization =
      some ("Basic " ++ base64_encode ("admin" ++ ":" ++ "password")) ∧
    (buildOutboundRequest true "admin" "password"
        [("Authorization", "Basic ZXZpbDpldmls"),
         ("Content-Type", "application/json")]).authorization =
      (buildOutboundRequest true "admin" "password"
        [("Authorization", "Basic c3Bvb2Y6c3Bvb2Y="),
         ("Content-Type", "application/json")]).authorization := by
  have h := forward_headers_auth_spec true "admin" "password"
    [("Authorization", "Basic ZXZpbDpldmls"), ("Content-Type", "application/json")]
    [("Authorization", "Basic c3Bvb2Y6c3Bvb2Y="), ("Content-Type", "application/json")]
  exact ⟨h.1 ("Content-Type", "application/json") (by decide) (by decide) (by decide),
         h.2.1 (by decide) (by decide), h.2.2⟩

/-- **C10**: the `GET /health` handler reports `"healthy"` exactly when the
stored CouchDB status is available and `"degraded"` otherwise; it never
reports `"unhealthy"`, and the `HealthStatus` enum value has no influence
on the response. -/
theorem health_handler_status_spec (couch : CouchDbStatus)
    (st st2 : HealthStatusKind) :
    (health_handler couch st).status =
      (if couch.available then "healthy" else "degraded") ∧
    health_handler couch st = health_handler couch st2 ∧
    ((health_handler couch st).status == "unhealthy") = false := by
  refine ⟨rfl, rfl, ?_⟩
  cases h : couch.available <;> simp [health_handler, h]

/-- Removing every entry of a client id from the registry list leaves no
entry with that id. -/
theorem brokerHasClient_filter (l : List (String × BChannel)) (clientId : String) :
    (l.filter (fun kv => kv.1 != clientId)).any (fun kv => kv.1 == clientId) = false := by
  induction l with
  | nil => rfl
  | cons hd tl ih =>
    by_cases h : hd.1 = clientId
    · simp [List.filter_cons, h, ih]
    · simp [List.filter_cons, h, ih]

/-- **C6**: `register_client` fails with the already-registered error
exactly when the id is present and otherwise inserts a fresh channel;
`unregister_client` fails with the not-found error exactly when the id is
absent; a second registration of the same id fails, and registration after
unregistration succeeds. -/
theorem broker_registration_spec (b : Broker) (clientId : String) :
    (brokerHasClient b clientId = true →
      register_client b clientId =
        .error (.WebSocketError ("Client " ++ clientId ++ " already registered"))) ∧
    (brokerHasClient b clientId = false →
      register_client b clientId =
        .ok { connections :=
          b.connections ++ [(clientId, { receivers := 0, queue := [] })] }) ∧
    (brokerHasClient b clientId = true →
      unregister_client b clientId =
        .ok { connections := b.connections.filter (fun kv => kv.1 != clientId) }) ∧
    (brokerHasClient b clientId = false →
      unregister_client b clientId =
        .error (.WebSocketError ("Client " ++ clientId ++ " not found"))) ∧
    (∀ b2 : Broker, register_client b clientId = .ok b2 →
      register_client b2 clientId =
        .error (.WebSocketError ("Client " ++ clientId ++ " already registered"))) ∧
    (∀ b2 : Broker, unregister_client b clientId = .ok b2 →
      register_client b2 clientId =
        .ok { connections :=
          b2.connections ++ [(clientId, { receivers := 0, queue := [] })] }) := by
  refine ⟨fun h => ?_, fun h => ?_, fun h => ?_, fun h => ?_,
          fun b2 h => ?_, fun b2 h => ?_⟩
  · simp [register_client, h]
  · simp [register_client, h]
  · simp [unregister_client, h]
  · simp [unregister_client, h]
  · cases hb : brokerHasClient b clientId
    · simp [register_client, hb] at h
      subst h
      simp [register_client, brokerHasClient, List.any_append]
    · simp [register_client, hb] at h
  · cases hb : brokerHasClient b clientId
    · simp [unregister_client, hb] at h
    · simp [unregister_client, hb] at h
      subst h
      have hf := brokerHasClient_filter b.connections clientId
      simp [register_client, brokerHasClient, hf]

/-- **C6** witness: on a concrete broker, `register("c1")` succeeds, a
second `register("c1")` fails with the conflict error, and
`unregister("c1")` followed by `register("c1")` succeeds. -/
theorem broker_registration_spec_witness :
    register_client { connections := [] } "c1" =
      .ok { connections := [("c1", { receivers := 0, queue := [] })] } ∧
    register_client { connections := [("c1", { receivers := 0, queue := [] })] } "c1" =
      .error (.WebSocketError ("Client " ++ "c1" ++ " already registered")) ∧
    unregister_client { connections := [("c1", { receivers := 0, queue := [] })] } "c1" =
      .ok { connections :=
        ([("c1", { receivers := 0, queue := [] })].filter (fun kv => kv.1 != "c1")) } ∧
    register_client
        { connections :=
          ([("c1", { receivers := 0, queue := [] })].filter (fun kv => kv.1 != "c1")) }
        "c1" =
      .ok { connections :=
        ([("c1", { receivers := 0, queue := [] })].filter (fun kv => kv.1 != "c1")) ++
          [("c1", { receivers := 0, queue := [] })] } := by
  have h0 := broker_registration_spec { connections := [] } "c1"
  have h1 := broker_registration_spec
    { connections := [("c1", { receivers := 0, queue := [] })] } "c1"
  refine ⟨h0.2.1 rfl, h1.1 rfl, h1.2.2.1 rfl, ?_⟩
  exact h1.2.2.2.2.2 _ (h1.2.2.1 rfl)

/-- The registry after a broadcast: every channel with a receiver got the
message appended, every receiver-less channel is unchanged. -/
theorem broadcast_connections_eq (m : Json) (l : List (String × BChannel)) :
    (l.map (broadcastStep m)).map (fun r => r.1) =
      l.map (fun kv =>
        (kv.1, if kv.2.receivers = 0 then kv.2
               else { kv.2 with queue := kv.2.queue ++ [m] })) := by
  induction l with
  | nil => rfl
  | cons hd tl ih =>
    by_cases h : hd.2.receivers = 0
    · simp [broadcastStep, channelSend, h, ih]
    · simp [broadcastStep, channelSend, h, ih]

/-- The failure list of a broadcast: exactly the receiver-less clients,
each paired with the channel-closed error. -/
theorem broadcast_failures_eq (m : Json) (l : List (String × BChannel)) :
    (l.map (broadcastStep m)).filterMap (fun r => r.2) =
      (l.filter (fun kv => kv.2.receivers == 0)).map
        (fun kv => (kv.1, "channel closed")) := by
  induction l with
  | nil => rfl
  | cons hd tl ih =>
    by_cases h : hd.2.receivers = 0
    · simp [broadcastStep, channelSend, List.filter_cons, h, ih]
    · simp [broadcastStep, channelSend, List.filter_cons, h, ih]

/-- **C7**: `broadcast_message` attempts delivery to every registered
client and does not stop at a failed delivery: each client with a live
receiver gets the message appended to its channel even when other
deliveries fail, and each failed delivery is reported as a
`(client id, error)` pair in the returned failure list. -/
theorem broadcast_partial_failure_spec (b : Broker) (m : Json) :
    ((broadcast_message b m).1.connections =
      b.connections.map (fun kv =>
        (kv.1, if kv.2.receivers = 0 then kv.2
               else { kv.2 with queue := kv.2.queue ++ [m] }))) ∧
    ((broadcast_message b m).2 =
      (b.connections.filter (fun kv => kv.2.receivers == 0)).map
        (fun kv => (kv.1, "channel closed"))) ∧
    (∀ kv : String × BChannel, kv ∈ b.connections → ¬ kv.2.receivers = 0 →
      (kv.1, { kv.2 with queue := kv.2.queue ++ [m] }) ∈
        (broadcast_message b m).1.connections) ∧
    (∀ kv : String × BChannel, kv ∈ b.connections → kv.2.receivers = 0 →
      (kv.1, "channel closed") ∈ (broadcast_message b m).2) := by
  have hconn : (broadcast_message b m).1.connections =
      b.connections.map (fun kv =>
        (kv.1, if kv.2.receivers = 0 then kv.2
               else { kv.2 with queue := kv.2.queue ++ [m] })) :=
    broadcast_connections_eq m b.connections
  have hfail : (broadcast_message b m).2 =
      (b.connections.filter (fun kv => kv.2.receivers == 0)).map
        (fun kv => (kv.1, "channel closed")) :=
    broadcast_failures_eq m b.connections
  refine ⟨hconn, hfail, fun kv hmem h => ?_, fun kv hmem h => ?_⟩
  · rw [hconn]
    refine List.mem_map.mpr ⟨kv, hmem, ?_⟩
    simp [h]
  · rw [hfail]
    refine List.mem_map.mpr ⟨kv, List.mem_filter.mpr ⟨hmem, ?_⟩, rfl⟩
    simp [h]

/-- **C7** witness: with client `b` holding a dead (receiver-less) channel
listed before client `a`, broadcasting still delivers to `a` and reports
`b` in the failure list. -/
theorem broadcast_partial_failure_spec_witness :
    (("a", { receivers := 1, queue := [Json.str "hello"] }) : String × BChannel) ∈
      (broadcast_message
        { connections := [("b", { receivers := 0, queue := [] }),
                          ("a", { receivers := 1, queue := [] })] }
        (Json.str "hello")).1.connections ∧
    ("b", "channel closed") ∈
      (broadcast_message
        { connections := [("b", { receivers := 0, queue := [] }),
                          ("a", { receivers := 1, queue := [] })] }
        (Json.str "hello")).2 := by
  have h := broadcast_partial_failure_spec
    { connections := [("b", { receivers := 0, queue := [] }),
                      ("a", { receivers := 1, queue := [] })] }
    (Json.str "hello")
  exact ⟨h.2.2.1 ("a", { receivers := 1, queue := [] })
          (List.Mem.tail _ (List.Mem.head _)) (by decide),
         h.2.2.2 ("b", { receivers := 0, queue := [] }) (List.Mem.head _) rfl⟩

/-- **C8**: `handle_sync` rejects a payload without a string `database`
field with `InvalidMessage` before any backend call; otherwise it calls
`ensure_database`; a `document` object that fails to deserialize into the
document shape yields `InvalidMessage`; and a successful save sends a
`Sync`-kind message back to the same client whose payload carries the saved
document's id and new revision. -/
theorem handle_sync_spec (be : BackendBehavior) (clientId : String) (payload : Json) :
    ((jsonIndex payload "database").asStr = none →
      (handle_sync be clientId payload).result =
        .error (.InvalidMessage "Missing database name") ∧
      (handle_sync be clientId payload).calls = []) ∧
    (∀ dbName : String, (jsonIndex payload "database").asStr = some dbName →
      BackendCall.ensureDb dbName ∈ (handle_sync be clientId payload).calls) ∧
    (∀ dbName e, (jsonIndex payload "database").asStr = some dbName →
      be.ensure dbName = .ok () →
      (∃ fields, (jsonIndex payload "document").asObj = some fields) →
      deserializeDoc (jsonIndex payload "document") = .error e →
      (handle_sync be clientId payload).result =
        .error (.InvalidMessage ("Invalid document format: " ++ e))) ∧
    (∀ dbName doc saved, (jsonIndex payload "database").asStr = some dbName →
      be.ensure dbName = .ok () →
      (∃ fields, (jsonIndex payload "document").asObj = some fields) →
      deserializeDoc (jsonIndex payload "document") = .ok doc →
      be.save dbName doc = .ok saved →
      (handle_sync be clientId payload).sent =
        [(clientId, MessageType.Sync, syncReplyPayload saved)] ∧
      (handle_sync be clientId payload).result =
        be.send clientId .Sync (syncReplyPayload saved)) := by
  refine ⟨fun h => ?_, fun dbName h => ?_,
          fun dbName e h he hobj hdes => ?_,
          fun dbName doc saved h he hobj hdes hsave => ?_⟩
  · simp [handle_sync, h]
  · rcases hens : be.ensure dbName with e | u
    · simp [handle_sync, h, hens]
    · rcases hobj : (jsonIndex payload "document").asObj with _ | fields
      · simp [handle_sync, h, hens, hobj]
      · rcases hdes : deserializeDoc (jsonIndex payload "document") with e2 | doc
        · simp [handle_sync, h, hens, hobj, hdes]
        · rcases hsave : be.save dbName doc with e3 | saved
          · simp [handle_sync, h, hens, hobj, hdes, hsave]
          · simp [handle_sync, h, hens, hobj, hdes, hsave]
  · obtain ⟨fields, hobj⟩ := hobj
    simp [handle_sync, h, he, hobj, hdes]
  · obtain ⟨fields, hobj⟩ := hobj
    simp [handle_sync, h, he, hobj, hdes, hsave]

/-- **C8** witness: the four cases evaluated on concrete payloads against
the concrete collaborators of `witnessBackend`. -/
theorem handle_sync_spec_witness :
    ((handle_sync witnessBackend "c1" (Json.obj [("note", Json.str "x")])).result =
        .error (.InvalidMessage "Missing database name") ∧
      (handle_sync witnessBackend "c1" (Json.obj [("note", Json.str "x")])).calls = []) ∧
    BackendCall.ensureDb "notes" ∈
      (handle_sync witnessBackend "c1"
        (Json.obj [("database", Json.str "notes")])).calls ∧
    (handle_sync witnessBackend "c1"
        (Json.obj [("database", Json.str "notes"),
                   ("document", Json.obj [("content", Json.str "hi")])])).result =
      .error (.InvalidMessage ("Invalid document format: " ++ "missing field _id")) ∧
    (handle_sync witnessBackend "c1"
        (Json.obj [("database", Json.str "notes"),
                   ("document", Json.obj [("_id", Json.str "n1"),
                                          ("content", Json.str "hi")])])).sent =
      [("c1", MessageType.Sync,
        syncReplyPayload ⟨"n1", some "1-abc",
          Json.obj [("content", Json.str "hi")]⟩)] := by
  have h1 := handle_sync_spec witnessBackend "c1" (Json.obj [("note", Json.str "x")])
  have h2 := handle_sync_spec witnessBackend "c1"
    (Json.obj [("database", Json.str "notes")])
  have h3 := handle_sync_spec witnessBackend "c1"
    (Json.obj [("database", Json.str "notes"),
               ("document", Json.obj [("content", Json.str "hi")])])
  have h4 := handle_sync_spec witnessBackend "c1"
    (Json.obj [("database", Json.str "notes"),
               ("document", Json.obj [("_id", Json.str "n1"),
                                      ("content", Json.str "hi")])])
  refine ⟨h1.1 rfl, h2.2.1 "notes" rfl, ?_, ?_⟩
  · exact h3.2.2.1 "notes" "missing field _id" rfl rfl
      ⟨[("content", Json.str "hi")], rfl⟩ rfl
  · exact (h4.2.2.2 "notes" ⟨"n1", none, Json.obj [("content", Json.str "hi")]⟩
      ⟨"n1", some "1-abc", Json.obj [("content", Json.str "hi")]⟩ rfl rfl
      ⟨[("_id", Json.str "n1"), ("content", Json.str "hi")], rfl⟩ rfl rfl).1

/-- `find?` skips a prefix on which the predicate is everywhere false. -/
theorem find?_append_all_false {α : Type} (p : α → Bool) (l1 l2 : List α)
    (h : ∀ a ∈ l1, p a = false) : (l1 ++ l2).find? p = l2.find? p := by
  induction l1 with
  | nil => rfl
  | cons hd tl ih =>
    have hhd := h hd (List.Mem.head _)
    rw [List.cons_append, List.find?_cons, hhd]
    exact ih (fun a ha => h a (List.Mem.tail _ ha))

/-- **C9**: saving a document with empty revision and then getting it back
by id returns a document with the same id and data and a non-empty
backend-assigned revision; `save_document` itself returns its input with
`rev` set to `Some` of that revision.  (The `data` object may not use the
reserved `_id`/`_rev` keys, which serde's `flatten` would collide on.) -/
theorem save_get_roundtrip (s : MiniCouch) (dbName : String) (d : CouchDbDocument)
    (fs : List (String × Json)) (hrev : d.rev = none) (hdata : d.data = Json.obj fs)
    (hkeys : ∀ kv ∈ fs, ((kv.1 != "_id") && (kv.1 != "_rev")) = true) :
    ∃ r : String, 0 < r.length ∧
      (save_document s dbName d).2 = .ok ⟨d.id, some r, d.data⟩ ∧
      get_document (save_document s dbName d).1 dbName d.id =
        .ok ⟨d.id, some r, d.data⟩ := by
  obtain ⟨docId, rev, data⟩ := d
  simp only at hrev hdata
  subst hrev
  subst hdata
  set r : String := "rev-" ++ toString (s.seq + 1) with hr
  have hkeys_rev : ∀ kv ∈ fs, (kv.1 != "_rev") = true := by
    intro kv hkv
    have h := hkeys kv hkv
    simp only [Bool.and_eq_true] at h
    exact h.2
  have hfilter_rev : fs.filter (fun kv => kv.1 != "_rev") = fs :=
    List.filter_eq_self.mpr hkeys_rev
  have hfilter_keys : fs.filter (fun kv => (kv.1 != "_id") && (kv.1 != "_rev")) = fs :=
    List.filter_eq_self.mpr hkeys
  have hser : serializeDoc ⟨docId, none, Json.obj fs⟩ =
      Json.obj (("_id", Json.str docId) :: fs) := rfl
  have hset : setRevField (Json.obj (("_id", Json.str docId) :: fs)) r =
      Json.obj (("_id", Json.str docId) :: (fs ++ [("_rev", Json.str r)])) := by
    simp [setRevField, List.filter_cons, hfilter_rev]
  have hsave1 : (save_document s dbName ⟨docId, none, Json.obj fs⟩).1 =
      { docs := (dbName ++ "/" ++ docId,
          Json.obj (("_id", Json.str docId) :: (fs ++ [("_rev", Json.str r)]))) ::
          s.docs.filter (fun kv => kv.1 != (dbName ++ "/" ++ docId)),
        seq := s.seq + 1 } := by
    simp only [save_document, MiniCouch.putDoc, hser]
    rw [← hr, hset]
  have hget : MiniCouch.getDoc (save_document s dbName ⟨docId, none, Json.obj fs⟩).1
      (dbName ++ "/" ++ docId) =
      some (Json.obj (("_id", Json.str docId) :: (fs ++ [("_rev", Json.str r)]))) := by
    rw [hsave1]
    simp [MiniCouch.getDoc]
  have hidfind : lookupField (("_id", Json.str docId) :: (fs ++ [("_rev", Json.str r)]))
      "_id" = some (Json.str docId) := by
    simp [lookupField, List.find?_cons]
  have hfsfalse : ∀ kv ∈ fs, ((fun kv : String × Json => kv.1 == "_rev") kv) = false := by
    intro kv hkv
    have h := hkeys_rev kv hkv
    simpa [bne] using h
  have hfind2 : (fs ++ [("_rev", Json.str r)]).find? (fun kv => kv.1 == "_rev") =
      some ("_rev", Json.str r) := by
    rw [find?_append_all_false _ fs _ hfsfalse]
    simp [List.find?_cons]
  have hrevfind : lookupField (("_id", Json.str docId) :: (fs ++ [("_rev", Json.str r)]))
      "_rev" = some (Json.str r) := by
    simp [lookupField, List.find?_cons, hfind2]
  have hremove : removeIdRev (("_id", Json.str docId) :: (fs ++ [("_rev", Json.str r)])) =
      fs := by
    simp [removeIdRev, List.filter_cons, List.filter_append, hfilter_keys]
  have hdes : deserializeDoc
      (Json.obj (("_id", Json.str docId) :: (fs ++ [("_rev", Json.str r)]))) =
      .ok ⟨docId, some r, Json.obj fs⟩ := by
    simp [deserializeDoc, hidfind, hrevfind, hremove]
  refine ⟨r, ?_, rfl, ?_⟩
  · have hlen : r.length = "rev-".length + (toString (s.seq + 1)).length :=
      String.length_append _ _
    have h4 : "rev-".length = 4 := rfl
    omega
  · simp only [get_document, hget, hdes]

/-- **C9** witness: saving `⟨"n1", none, \x7b"content":"hi"\x7d⟩` into an empty
store and reading it back returns the same id and data with the non-empty
revision `rev-1`. -/
theorem save_get_roundtrip_witness :
    ∃ r : String, 0 < r.length ∧
      (save_document ⟨[], 0⟩ "notes" ⟨"n1", none, Json.obj [("content", Json.str "hi")]⟩).2 =
        .ok ⟨"n1", some r, Json.obj [("content", Json.str "hi")]⟩ ∧
      get_document
          (save_document ⟨[], 0⟩ "notes"
            ⟨"n1", none, Json.obj [("content", Json.str "hi")]⟩).1 "notes" "n1" =
        .ok ⟨"n1", some r, Json.obj [("content", Json.str "hi")]⟩ :=
  save_get_roundtrip ⟨[], 0⟩ "notes" ⟨"n1", none, Json.obj [("content", Json.str "hi")]⟩
    [("content", Json.str "hi")] rfl rfl (by decide)

end LiveSyncProxy
